import Mathlib

/-!
Formal model of the book-recommendation pipeline of `aladin_reco/app.py`
(catalog search → per-item detail lookup → generative recommendation →
marker-line parse → bidirectional substring match → terminal outcome).

Modelling conventions:
* network requests and XML parsing are modelled by explicit input data
  (`ApiResponse` carries either a request failure, a parse failure, or the
  parsed document content);
* Python exceptions are modelled by `Except PyErr`; an uncaught exception
  shows up as an `Except.error` that no handler converts;
* Python `None` is modelled by `Option`;
* `xml.etree` element access is modelled by `XmlField` (element absent, or
  element present with an optional text node, since `Element.text` is `None`
  for an empty element);
* Python string helpers (`strip`, `splitlines`, `replace`, `startswith`,
  the `in` operator) and numeric conversions (`float`, `int`) are modelled
  by the `py*` functions below.  `pyFloat?`/`pyInt?` cover plain decimal
  literals (optional sign, digits, optional fraction part), which is the
  shape of the provider rating fields; exotic float spellings (exponents,
  inf, nan, underscores) are outside the model.
-/

/-- Python whitespace: the characters for which `str.isspace()` holds, the
set removed at both ends by `str.strip()`. -/
def pyWhitespace (c : Char) : Bool :=
  (decide (0x09 ≤ c.toNat) && decide (c.toNat ≤ 0x0d)) ||
  decide (c.toNat = 0x20) ||
  (decide (0x1c ≤ c.toNat) && decide (c.toNat ≤ 0x1f)) ||
  decide (c.toNat = 0x85) || decide (c.toNat = 0xa0) ||
  decide (c.toNat = 0x1680) ||
  (decide (0x2000 ≤ c.toNat) && decide (c.toNat ≤ 0x200a)) ||
  decide (c.toNat = 0x2028) || decide (c.toNat = 0x2029) ||
  decide (c.toNat = 0x202f) || decide (c.toNat = 0x205f) ||
  decide (c.toNat = 0x3000)

/-- Python `str.strip()` with no argument: drop leading and trailing
whitespace. -/
def pyStrip (s : String) : String :=
  String.mk (((s.data.dropWhile pyWhitespace).reverse.dropWhile pyWhitespace).reverse)

/-- Python line boundary characters recognised by `str.splitlines()`. -/
def pyLineBreak (c : Char) : Bool :=
  decide (c.toNat = 0x0a) || decide (c.toNat = 0x0d) ||
  decide (c.toNat = 0x0b) || decide (c.toNat = 0x0c) ||
  decide (c.toNat = 0x1c) || decide (c.toNat = 0x1d) ||
  decide (c.toNat = 0x1e) || decide (c.toNat = 0x85) ||
  decide (c.toNat = 0x2028) || decide (c.toNat = 0x2029)

/-- Worker for `pySplitlines`: `acc` is the current line (reversed) and
`prevCR` records that the previous character was a carriage return, so that
a following line feed is swallowed (`"\r\n"` is one boundary). -/
def pySplitlinesGo : List Char → List Char → Bool → List String
  | [], acc, _ => if acc = [] then [] else [String.mk acc.reverse]
  | c :: cs, acc, prevCR =>
    if prevCR ∧ c = '\n' then
      pySplitlinesGo cs acc false
    else if c = '\r' then
      String.mk acc.reverse :: pySplitlinesGo cs [] true
    else if pyLineBreak c then
      String.mk acc.reverse :: pySplitlinesGo cs [] false
    else
      pySplitlinesGo cs (c :: acc) false

/-- Python `str.splitlines()`: split at line boundaries, boundary characters
removed, no trailing empty line for a trailing boundary. -/
def pySplitlines (s : String) : List String :=
  pySplitlinesGo s.data [] false

/-- Python `"\n".join(lines)`. -/
def pyJoinNl : List String → String
  | [] => ""
  | l :: rest => rest.foldl (fun acc x => acc ++ "\n" ++ x) l

/-- Python `s.startswith(pre)`. -/
def pyStartswith (s pre : String) : Bool :=
  pre.data.isPrefixOf s.data

/-- Occurrence of `needle` as a contiguous subsequence of `haystack`. -/
def occursIn (needle haystack : List Char) : Bool :=
  (List.range (haystack.length + 1)).any (fun i => needle.isPrefixOf (haystack.drop i))

/-- Python `needle in haystack` on strings (contiguous substring test; the
empty string occurs in every string). -/
def pyIn (needle haystack : String) : Bool :=
  occursIn needle.data haystack.data

/-- Worker for `pyReplace`: replaces non-overlapping occurrences of the
nonempty pattern `p :: ps` left to right.  `fuel` only forces structural
termination; every step consumes at least one character, so any fuel of at
least the input length computes the replacement exactly. -/
def pyReplaceGo (p : Char) (ps rep : List Char) : Nat → List Char → List Char
  | 0, l => l
  | _ + 1, [] => []
  | fuel + 1, c :: cs =>
    if (p :: ps).isPrefixOf (c :: cs) then
      rep ++ pyReplaceGo p ps rep fuel (cs.drop ps.length)
    else
      c :: pyReplaceGo p ps rep fuel cs

/-- Python `s.replace(pat, rep)`: every non-overlapping occurrence of `pat`,
scanned left to right, is replaced by `rep`.  (The markers replaced in the
source are nonempty; the empty-pattern case is modelled as the identity.) -/
def pyReplace (s pat rep : String) : String :=
  match pat.data with
  | [] => s
  | p :: ps => String.mk (pyReplaceGo p ps rep.data (s.data.length + 1) s.data)

/-- Value of a digit character. -/
def digitsToNat (l : List Char) : Nat :=
  l.foldl (fun n c => 10 * n + (c.toNat - 48)) 0

/-- Parse a nonempty all-digit character list. -/
def parseNatDigits (l : List Char) : Option Nat :=
  if l = [] then none
  else if l.all Char.isDigit then some (digitsToNat l)
  else none

/-- Python `int(s)` on plain decimal literals: surrounding whitespace is
allowed, then an optional sign and a nonempty digit string; anything else
raises `ValueError`, modelled as `none`. -/
def pyInt? (s : String) : Option Int :=
  match (pyStrip s).data with
  | '+' :: rest => (parseNatDigits rest).map Int.ofNat
  | '-' :: rest => (parseNatDigits rest).map (fun n => -(n : Int))
  | l => (parseNatDigits l).map Int.ofNat

/-- A parsed float value represented exactly: the value is
`num / 10 ^ exp`, kept unnormalised so that its sign is the sign of `num`
(the only use the source makes of the value is the comparison `> 0`). -/
structure PyFloat where
  num : Int
  exp : Nat
deriving DecidableEq

/-- Magnitude part of a Python float literal: digits with an optional single
point, at least one digit overall. -/
def parseFloatMag (l : List Char) : Option PyFloat :=
  let ip := l.takeWhile (fun c => decide (c ≠ '.'))
  match l.dropWhile (fun c => decide (c ≠ '.')) with
  | [] => (parseNatDigits ip).map (fun n => ⟨Int.ofNat n, 0⟩)
  | _ :: fp =>
    if fp.any (fun c => decide (c = '.')) then none
    else if ip.all Char.isDigit && fp.all Char.isDigit &&
        (decide (ip ≠ []) || decide (fp ≠ [])) then
      some ⟨Int.ofNat (digitsToNat ip * 10 ^ fp.length + digitsToNat fp), fp.length⟩
    else none

/-- Python `float(s)` on plain decimal literals: surrounding whitespace,
optional sign, digits with an optional fraction part; anything else raises
`ValueError`, modelled as `none`. -/
def pyFloat? (s : String) : Option PyFloat :=
  match (pyStrip s).data with
  | '+' :: rest => parseFloatMag rest
  | '-' :: rest => (parseFloatMag rest).map (fun f => ⟨-f.num, f.exp⟩)
  | l => parseFloatMag l

/-! ## Data model -/

/-- The Python exceptions that can arise inside the pipeline.
`bookSearchError` and `recommendationError` are the two user-defined
exception classes of `app.py`; the remaining constructors are builtin
exceptions raised by slips in the code and caught by no handler. -/
inductive PyErr where
  | bookSearchError (msg : String)
  | recommendationError (msg : String)
  | valueError (msg : String)
  | attributeError (msg : String)
  | typeError (msg : String)
deriving DecidableEq

/-- Outcome of one HTTP request as seen after `requests.get`,
`raise_for_status` and `ET.fromstring`: a network-level failure
(`requests.exceptions.RequestException`), an XML parse failure
(`ET.ParseError`), or the parsed document `δ`. -/
inductive ApiResponse (δ : Type) where
  | requestError (msg : String)
  | parseError (msg : String)
  | doc (d : δ)
deriving DecidableEq

/-- One XML child element slot: the element may be absent
(`Element.find` returns `None`) or present with an optional text node
(`Element.text` is `None` for an empty element). -/
inductive XmlField where
  | absent
  | present (text : Option String)
deriving DecidableEq

/-- Parsed `ratingInfo` element of the lookup response. -/
structure RatingInfoElem where
  ratingScore : XmlField
deriving DecidableEq

/-- Parsed `subInfo` element of the lookup response. -/
structure SubInfoElem where
  ratingInfo : Option RatingInfoElem
deriving DecidableEq

/-- Parsed `item` element of the lookup response. -/
structure LookupItem where
  subInfo : Option SubInfoElem
  customerReviewRank : XmlField
deriving DecidableEq

/-- Parsed lookup response document: at most one `item`. -/
structure LookupDoc where
  item : Option LookupItem
deriving DecidableEq

/-- The `RatingInfo` dictionary returned by `get_book_detail`
(`{'star_rating': ...}`). -/
structure RatingInfo where
  star_rating : String
deriving DecidableEq

/-- Parsed `item` element of the search response. -/
structure SearchItem where
  isbn13 : XmlField
  title : XmlField
  author : XmlField
  description : XmlField
  cover : XmlField
deriving DecidableEq

/-- Parsed search response document: the ordered `item` list. -/
structure SearchDoc where
  items : List SearchItem
deriving DecidableEq

/-- One book dictionary built by `search_books_by_title`.  Fields whose
extraction can produce Python `None` (a present element with no text) are
`Option String`. -/
structure Book where
  title : Option String
  author : Option String
  description : Option String
  cover_url : Option String
  star_rating : String
deriving DecidableEq

/-- Outcome of the `model.generate_content` call: either some exception
(any failure of the generative service, wrapped by the caller) or the raw
response text. -/
inductive GeminiResult where
  | failure (msg : String)
  | success (text : String)
deriving DecidableEq

/-- Terminal outcome of one `run_recommendation_workflow` invocation.
`errorMsg` is the `st.error` message of the `except` handler; `crashed`
records an exception escaping the function uncaught. -/
inductive Terminal where
  | errorMsg (msg : String)
  | noResults
  | resolved (book : Book) (raw : String)
  | unmatched (raw : String)
  | crashed (e : PyErr)
deriving DecidableEq

/-! ## Embeddings of the pipeline functions (source: `aladin_reco/app.py`) -/

/-- Outcome of one conditional branch of `get_book_detail`: the branch
produced a rating string, did not fire, or raised a `ValueError` while
converting a non-numeric text. -/
inductive BranchRes where
  | fired (str : String)
  | off
  | raiseVE (msg : String)
deriving DecidableEq

/-- Lines 103-111 of `app.py`: the `subInfo/ratingInfo/ratingScore` branch.
The Python condition `score_elem is not None and score_elem.text and
float(score_elem.text) > 0` short-circuits, so `float` (which raises on a
non-numeric string) is only reached for a present, nonempty text. -/
def scoreBranch (it : LookupItem) : BranchRes :=
  match it.subInfo with
  | none => BranchRes.off
  | some si =>
    match si.ratingInfo with
    | none => BranchRes.off
    | some ri =>
      match ri.ratingScore with
      | XmlField.absent => BranchRes.off
      | XmlField.present none => BranchRes.off
      | XmlField.present (some s) =>
        if s = "" then BranchRes.off
        else
          match pyFloat? s with
          | none => BranchRes.raiseVE ("could not convert string to float: " ++ s)
          | some f => if 0 < f.num then BranchRes.fired (s ++ " / 10.0") else BranchRes.off

/-- Lines 113-115 of `app.py`: the `customerReviewRank` branch, with the
same short-circuit shape around `int(review_rank_elem.text)`. -/
def rankBranch (it : LookupItem) : BranchRes :=
  match it.customerReviewRank with
  | XmlField.absent => BranchRes.off
  | XmlField.present none => BranchRes.off
  | XmlField.present (some s) =>
    if s = "" then BranchRes.off
    else
      match pyInt? s with
      | none => BranchRes.raiseVE ("invalid literal for int with base 10: " ++ s)
      | some n => if 0 < n then BranchRes.fired (toString n ++ " / 10") else BranchRes.off

/-- Lines 73-124 of `app.py`, `get_book_detail`: a network failure
(`RequestException`) or an XML parse failure (`ParseError`) is caught and
yields `None`; a document without an `item` yields `None`; otherwise the
rating string is produced by `scoreBranch` (returned immediately when it
fires) and then `rankBranch`, defaulting to the sentinel.  A `ValueError`
raised by `float`/`int` matches neither `except` clause and escapes. -/
def get_book_detail (resp : ApiResponse LookupDoc) : Except PyErr (Option RatingInfo) :=
  match resp with
  | ApiResponse.requestError _ => Except.ok none
  | ApiResponse.parseError _ => Except.ok none
  | ApiResponse.doc d =>
    match d.item with
    | none => Except.ok none
    | some it =>
      match scoreBranch it with
      | BranchRes.raiseVE m => Except.error (PyErr.valueError m)
      | BranchRes.fired str => Except.ok (some ⟨str⟩)
      | BranchRes.off =>
        match rankBranch it with
        | BranchRes.raiseVE m => Except.error (PyErr.valueError m)
        | BranchRes.fired str => Except.ok (some ⟨str⟩)
        | BranchRes.off => Except.ok (some ⟨"별점 정보 없음"⟩)

/-- Line 159 of `app.py`: `item.find('isbn13').text if item.find('isbn13')
is not None else None`. -/
def isbnText (it : SearchItem) : Option String :=
  match it.isbn13 with
  | XmlField.absent => none
  | XmlField.present t => t

/-- The guarded extraction pattern of lines 167-169: the text of the child
when the element is present (possibly Python `None`), else the default. -/
def fieldText : XmlField → String → Option String
  | XmlField.absent, d => some d
  | XmlField.present t, _ => t

/-- Lines 160-164 of `app.py`: the star-rating computation for one item.
The detail lookup runs only for a truthy ISBN; its returned dictionary
always carries the `star_rating` key, so `details.get('star_rating', ...)`
is that field; a `None` detail result falls back to the sentinel. -/
def starOf (env : String → ApiResponse LookupDoc) : Option String → Except PyErr String
  | none => Except.ok "별점 정보 없음"
  | some s =>
    if s = "" then Except.ok "별점 정보 없음"
    else
      match get_book_detail (env s) with
      | Except.error e => Except.error e
      | Except.ok none => Except.ok "별점 정보 없음"
      | Except.ok (some r) => Except.ok r.star_rating

/-- Lines 158-172 of `app.py`: construction of one book dictionary.
`title`/`author`/`description` are guarded with explicit defaults, but
`cover` is extracted as `item.find('cover', ns).text` with no guard, so an
absent `cover` element raises `AttributeError` (`None` has no attribute
`text`). -/
def processItem (env : String → ApiResponse LookupDoc) (it : SearchItem) :
    Except PyErr Book :=
  match starOf env (isbnText it) with
  | Except.error e => Except.error e
  | Except.ok star =>
    match it.cover with
    | XmlField.absent =>
      Except.error (PyErr.attributeError "NoneType object has no attribute text")
    | XmlField.present cov =>
      Except.ok
        { title := fieldText it.title "제목 없음"
          author := fieldText it.author "저자 없음"
          description := fieldText it.description "설명 없음"
          cover_url := cov
          star_rating := star }

/-- The `for item in items` loop of lines 157-172: items processed in
provider order; the first exception aborts the whole loop. -/
def buildBooks (env : String → ApiResponse LookupDoc) :
    List SearchItem → Except PyErr (List Book)
  | [] => Except.ok []
  | it :: rest =>
    match processItem env it with
    | Except.error e => Except.error e
    | Except.ok b =>
      match buildBooks env rest with
      | Except.error e => Except.error e
      | Except.ok bs => Except.ok (b :: bs)

/-- Lines 126-181 of `app.py`, `search_books_by_title`: a network or XML
parse failure of the search request is caught and re-raised as
`BookSearchError` carrying the cause text; an empty `item` list returns
`[]`; otherwise the item loop runs (exceptions other than the two caught
kinds, e.g. the `AttributeError` of a missing cover or a `ValueError` from
a detail lookup, propagate unchanged). -/
def search_books_by_title (resp : ApiResponse SearchDoc)
    (env : String → ApiResponse LookupDoc) : Except PyErr (List Book) :=
  match resp with
  | ApiResponse.requestError m =>
    Except.error (PyErr.bookSearchError ("알라딘 서버와 통신 중 오류가 발생했습니다: " ++ m))
  | ApiResponse.parseError m =>
    Except.error (PyErr.bookSearchError ("알라딘 서버의 응답을 처리하는 데 실패했습니다: " ++ m))
  | ApiResponse.doc d =>
    match d.items with
    | [] => Except.ok []
    | it :: rest => buildBooks env (it :: rest)

/-- Lines 183-216 of `app.py`, `get_gemini_recommendation`: any exception of
the generative call is wrapped into `RecommendationError` with the cause
text; on success the raw response text is returned stripped. -/
def get_gemini_recommendation (gem : GeminiResult) : Except PyErr String :=
  match gem with
  | GeminiResult.failure m =>
    Except.error (PyErr.recommendationError ("AI 추천 생성 중 오류가 발생했습니다: " ++ m))
  | GeminiResult.success t => Except.ok (pyStrip t)

/-- Lines 218-226 of `app.py`, `parse_recommended_book_title`: first line
(in `splitlines` order) starting with the marker, with every occurrence of
the marker replaced by the empty string and the result stripped; `none`
when no line starts with the marker.  The `try/except` of the source is
dead code (none of the string operations raises), so the function is total. -/
def parse_recommended_book_title (s : String) : Option String :=
  ((pySplitlines s).find? (fun l => pyStartswith l "추천 도서:")).map
    (fun l => pyStrip (pyReplace l "추천 도서:" ""))

/-- The loop body condition of lines 307-310: `recommended_title in
book['title'] or book['title'] in recommended_title`; a book whose `title`
is Python `None` makes the `in` operator raise `TypeError`. -/
def findMatch (s : String) : List Book → Except PyErr (Option Book)
  | [] => Except.ok none
  | b :: bs =>
    match b.title with
    | none => Except.error (PyErr.typeError "argument of type NoneType is not iterable")
    | some bt =>
      if pyIn s bt || pyIn bt s then Except.ok (some b)
      else findMatch s bs

/-- Lines 305-310 of `app.py`: the candidate-matching step.  The guard `if
recommended_title:` is Python truthiness, so both `None` and the empty
string skip the loop and leave `recommended_book = None`. -/
def matchStep (t : Option String) (books : List Book) : Except PyErr (Option Book) :=
  match t with
  | none => Except.ok none
  | some s => if s = "" then Except.ok none else findMatch s books

/-- Line 278 of `app.py` (`display_recommendation_card`): the rationale
shown with a resolved recommendation — drop the first `splitlines` line of
the raw response, join the rest with newlines, replace every occurrence of
the reason marker by the empty string, and strip. -/
def recommendation_card_reason (gemini_response : String) : String :=
  pyStrip (pyReplace (pyJoinNl ((pySplitlines gemini_response).drop 1)) "추천 이유:" "")

/-- Lines 323-324 of `app.py`: the `except (BookSearchError,
RecommendationError)` handler shows the message; any other exception
escapes `run_recommendation_workflow`. -/
def handleCaught (e : PyErr) : Terminal :=
  match e with
  | PyErr.bookSearchError m => Terminal.errorMsg ("오류가 발생했습니다: " ++ m)
  | PyErr.recommendationError m => Terminal.errorMsg ("오류가 발생했습니다: " ++ m)
  | e => Terminal.crashed e

/-- The `try` block of lines 291-321: search, empty-result early return,
recommendation, parse, match, and the final render decision. -/
def workflowBody (sr : ApiResponse SearchDoc) (env : String → ApiResponse LookupDoc)
    (gem : GeminiResult) : Except PyErr Terminal :=
  match search_books_by_title sr env with
  | Except.error e => Except.error e
  | Except.ok found =>
    match found with
    | [] => Except.ok Terminal.noResults
    | b :: bs =>
      match get_gemini_recommendation gem with
      | Except.error e => Except.error e
      | Except.ok raw =>
        match matchStep (parse_recommended_book_title raw) (b :: bs) with
        | Except.error e => Except.error e
        | Except.ok (some bk) => Except.ok (Terminal.resolved bk raw)
        | Except.ok none => Except.ok (Terminal.unmatched raw)

/-- Lines 286-328 of `app.py`, `run_recommendation_workflow`: the `try`
block, with `BookSearchError`/`RecommendationError` caught and every other
exception escaping. -/
def run_recommendation_workflow (sr : ApiResponse SearchDoc)
    (env : String → ApiResponse LookupDoc) (gem : GeminiResult) : Terminal :=
  match workflowBody sr env gem with
  | Except.ok t => t
  | Except.error e => handleCaught e

/-! ## Spec-side descriptions and helper lemmas -/

/-- The bidirectional containment test of the matcher on one candidate,
for candidates whose title is an actual string. -/
def titleMatches (s : String) (b : Book) : Bool :=
  match b.title with
  | some bt => pyIn s bt || pyIn bt s
  | none => false

/-- Modelled from the amended matcher claim: an absent or empty parsed
title yields no match; otherwise the first candidate in list order whose
title contains the parsed title or is contained in it. -/
def matcherSpec (t : Option String) (books : List Book) : Option Book :=
  match t with
  | none => none
  | some s => if s = "" then none else books.find? (titleMatches s)

/-- Whether a detail-lookup outcome returns (rather than raises). -/
def detailOk : Except PyErr (Option RatingInfo) → Bool
  | Except.ok _ => true
  | Except.error _ => false

/-- Text of a cover element when present. -/
def coverText : XmlField → Option String
  | XmlField.absent => none
  | XmlField.present t => t

/-- The star rating the search loop assigns to an item (description used to
state the construction claim): sentinel without a truthy ISBN, otherwise
the detail-lookup rating with the sentinel as fallback. -/
def starDescr (env : String → ApiResponse LookupDoc) : Option String → String
  | none => "별점 정보 없음"
  | some s =>
    if s = "" then "별점 정보 없음"
    else
      match get_book_detail (env s) with
      | Except.ok (some r) => r.star_rating
      | _ => "별점 정보 없음"

/-- Description (used to state the construction claim) of the one candidate
built from one search item: guarded defaults for title/author/description,
the cover text, and the star rating of `starDescr`. -/
def mkBook (env : String → ApiResponse LookupDoc) (it : SearchItem) : Book :=
  { title := fieldText it.title "제목 없음"
    author := fieldText it.author "저자 없음"
    description := fieldText it.description "설명 없음"
    cover_url := coverText it.cover
    star_rating := starDescr env (isbnText it) }

/-- An item whose processing raises nothing: its cover element is present
and, when its ISBN is truthy, the detail lookup returns. -/
def itemOk (env : String → ApiResponse LookupDoc) (it : SearchItem) : Bool :=
  (if it.cover = XmlField.absent then false else true) &&
    (match isbnText it with
     | none => true
     | some s => if s = "" then true else detailOk (get_book_detail (env s)))

theorem append_ne_empty_of_right (a b : String) (hb : b.data ≠ []) : a ++ b ≠ "" := by
  intro h
  apply hb
  have h3 : (a ++ b).data = a.data ++ b.data := by cases a; cases b; rfl
  have h4 : ("" : String).data = [] := rfl
  have h2 : a.data ++ b.data = [] := by rw [← h3, h, h4]
  exact (List.append_eq_nil.mp h2).2

theorem scoreBranch_fired (it : LookupItem) (str : String)
    (h : scoreBranch it = BranchRes.fired str) : ∃ s, str = s ++ " / 10.0" := by
  unfold scoreBranch at h
  repeat' split at h
  all_goals simp_all
  exact ⟨_, h.symm⟩

theorem rankBranch_fired (it : LookupItem) (str : String)
    (h : rankBranch it = BranchRes.fired str) : ∃ n : ℤ, str = toString n ++ " / 10" := by
  unfold rankBranch at h
  repeat' split at h
  all_goals simp_all
  exact ⟨_, h.symm⟩

theorem detail_rating_ne_empty (resp : ApiResponse LookupDoc) (r : RatingInfo)
    (h : get_book_detail resp = Except.ok (some r)) : r.star_rating ≠ "" := by
  cases resp with
  | requestError m => simp [get_book_detail] at h
  | parseError m => simp [get_book_detail] at h
  | doc d =>
    simp only [get_book_detail] at h
    split at h
    · simp at h
    · split at h
      · simp at h
      · next str heq =>
        obtain ⟨s, hstr⟩ := scoreBranch_fired _ str heq
        injection h with h1
        injection h1 with h2
        subst h2
        show str ≠ ""
        rw [hstr]
        exact append_ne_empty_of_right s " / 10.0" (by decide)
      · split at h
        · simp at h
        · next str heq =>
          obtain ⟨n, hstr⟩ := rankBranch_fired _ str heq
          injection h with h1
          injection h1 with h2
          subst h2
          show str ≠ ""
          rw [hstr]
          exact append_ne_empty_of_right (toString n) " / 10" (by decide)
        · injection h with h1
          injection h1 with h2
          subst h2
          decide

theorem starOf_ok (env : String → ApiResponse LookupDoc) (o : Option String) (str : String)
    (h : starOf env o = Except.ok str) :
    str = "별점 정보 없음" ∨
      ∃ s r, get_book_detail (env s) = Except.ok (some r) ∧ str = r.star_rating := by
  cases o with
  | none =>
    left
    injection h with h1
    exact h1.symm
  | some s =>
    simp only [starOf] at h
    split at h
    · left
      injection h with h1
      exact h1.symm
    · split at h
      · cases h
      · left
        injection h with h1
        exact h1.symm
      · next r heq =>
        right
        injection h with h1
        exact ⟨s, r, heq, h1.symm⟩

theorem processItem_star (env : String → ApiResponse LookupDoc) (it : SearchItem) (b : Book)
    (h : processItem env it = Except.ok b) :
    starOf env (isbnText it) = Except.ok b.star_rating := by
  unfold processItem at h
  split at h
  · cases h
  · next star heq =>
    split at h
    · cases h
    · injection h with h1
      rw [← h1]
      exact heq

theorem buildBooks_mem (env : String → ApiResponse LookupDoc) (l : List SearchItem)
    (books : List Book) (h : buildBooks env l = Except.ok books) (b : Book)
    (hb : b ∈ books) : ∃ it, processItem env it = Except.ok b := by
  induction l generalizing books with
  | nil =>
    injection h with h1
    rw [← h1] at hb
    simp at hb
  | cons it rest ih =>
    unfold buildBooks at h
    split at h
    · cases h
    · next b0 heq0 =>
      split at h
      · cases h
      · next bs heqs =>
        injection h with h1
        rw [← h1] at hb
        rcases List.mem_cons.mp hb with hb1 | hb2
        · rw [hb1]
          exact ⟨it, heq0⟩
        · exact ih bs heqs hb2

theorem processItem_ok (env : String → ApiResponse LookupDoc) (it : SearchItem)
    (h : itemOk env it = true) : processItem env it = Except.ok (mkBook env it) := by
  unfold itemOk at h
  rw [Bool.and_eq_true] at h
  obtain ⟨h1, h2⟩ := h
  obtain ⟨cov, hcov⟩ : ∃ t0, it.cover = XmlField.present t0 := by
    cases hc : it.cover with
    | absent => rw [hc] at h1; simp at h1
    | present t0 => exact ⟨t0, rfl⟩
  have hstar : starOf env (isbnText it) = Except.ok (starDescr env (isbnText it)) := by
    cases ho : isbnText it with
    | none => rfl
    | some s =>
      rw [ho] at h2
      simp only [starOf, starDescr]
      by_cases hs : s = ""
      · simp [hs]
      · rw [if_neg hs, if_neg hs]
        have h2a : (if s = "" then true else detailOk (get_book_detail (env s))) = true := h2
        rw [if_neg hs] at h2a
        cases hd : get_book_detail (env s) with
        | error e => rw [hd] at h2a; simp [detailOk] at h2a
        | ok o => cases o <;> rfl
  unfold processItem
  rw [hstar, hcov]
  unfold mkBook
  rw [hcov]
  rfl

theorem buildBooks_map (env : String → ApiResponse LookupDoc) (l : List SearchItem)
    (h : ∀ it ∈ l, itemOk env it = true) :
    buildBooks env l = Except.ok (l.map (mkBook env)) := by
  induction l with
  | nil => rfl
  | cons it rest ih =>
    unfold buildBooks
    rw [processItem_ok env it (h it (by simp)), ih (fun x hx => h x (by simp [hx]))]
    rfl

theorem findMatch_cons (s : String) (b : Book) (bs : List Book) :
    findMatch s (b :: bs) =
      match b.title with
      | none => Except.error (PyErr.typeError "argument of type NoneType is not iterable")
      | some bt =>
        if pyIn s bt || pyIn bt s then Except.ok (some b) else findMatch s bs := rfl

theorem findMatch_eq (s : String) (books : List Book)
    (h : ∀ b ∈ books, b.title ≠ none) :
    findMatch s books = Except.ok (books.find? (titleMatches s)) := by
  induction books with
  | nil => rfl
  | cons b bs ih =>
    obtain ⟨bt, hbt⟩ : ∃ t0, b.title = some t0 := by
      cases hb : b.title with
      | none => exact absurd hb (h b (by simp))
      | some t0 => exact ⟨t0, rfl⟩
    rw [findMatch_cons, hbt]
    show (if pyIn s bt || pyIn bt s then Except.ok (some b) else findMatch s bs) =
      Except.ok (List.find? (titleMatches s) (b :: bs))
    by_cases hm : (pyIn s bt || pyIn bt s) = true
    · rw [if_pos hm, List.find?_cons_of_pos _ (by simp [titleMatches, hbt, hm])]
    · have hm2 : (pyIn s bt || pyIn bt s) = false := by simpa using hm
      rw [if_neg (by simp [hm2]), List.find?_cons_of_neg _ (by simp [titleMatches, hbt, hm2])]
      exact ih (fun x hx => h x (by simp [hx]))

theorem find?_pre_cons {α : Type} (p : α → Bool) (pre : List α) (x : α) (post : List α)
    (hpre : ∀ y ∈ pre, p y = false) (hx : p x = true) :
    (pre ++ x :: post).find? p = some x := by
  induction pre with
  | nil => simp [List.find?_cons_of_pos _ hx]
  | cons a l ih =>
    have ha := hpre a (by simp)
    rw [List.cons_append, List.find?_cons_of_neg _ (by simp [ha])]
    exact ih (fun y hy => hpre y (by simp [hy]))

theorem pySplitlinesGo_cons (c : Char) (cs acc : List Char) (prevCR : Bool) :
    pySplitlinesGo (c :: cs) acc prevCR =
      if prevCR ∧ c = '\n' then
        pySplitlinesGo cs acc false
      else if c = '\r' then
        String.mk acc.reverse :: pySplitlinesGo cs [] true
      else if pyLineBreak c then
        String.mk acc.reverse :: pySplitlinesGo cs [] false
      else
        pySplitlinesGo cs (c :: acc) false := rfl

theorem pySplitlinesGo_break (l r : List Char) (acc : List Char)
    (h : ∀ c ∈ l, pyLineBreak c = false) :
    pySplitlinesGo (l ++ '\n' :: r) acc false =
      String.mk (acc.reverse ++ l) :: pySplitlinesGo r [] false := by
  induction l generalizing acc with
  | nil =>
    show pySplitlinesGo ('\n' :: r) acc false = _
    rw [pySplitlinesGo_cons, if_neg (by simp), if_neg (by decide), if_pos (by decide)]
    simp
  | cons c cl ih =>
    have hc := h c (by simp)
    have hcr : ¬(c = '\r') := by
      intro he
      rw [he] at hc
      exact absurd hc (by decide)
    show pySplitlinesGo (c :: (cl ++ '\n' :: r)) acc false = _
    rw [pySplitlinesGo_cons, if_neg (by simp), if_neg hcr, if_neg (by simp [hc])]
    rw [ih (c :: acc) (fun x hx => h x (by simp [hx]))]
    simp

theorem pySplitlines_cons (first rest : String)
    (h : ∀ c ∈ first.data, pyLineBreak c = false) :
    pySplitlines (first ++ "\n" ++ rest) = first :: pySplitlines rest := by
  obtain ⟨fl⟩ := first
  obtain ⟨rl⟩ := rest
  have hd : (String.mk fl ++ "\n" ++ String.mk rl).data = fl ++ '\n' :: rl := by
    rw [String.data_append, String.data_append]
    show (fl ++ ('\n' :: List.nil)) ++ rl = fl ++ '\n' :: rl
    simp
  unfold pySplitlines
  rw [hd, pySplitlinesGo_break fl rl [] h]
  simp [pySplitlines]

/-! ## Claims -/

/-- C1 (amended): for every candidate list whose titles are all actual
strings, the matcher is the function `matcherSpec`: an absent or empty
parsed title yields no match, and a nonempty parsed title selects the first
candidate in list order whose title contains it or is contained in it
(case-sensitive), with no match otherwise; being a function of `(t, books)`
it is deterministic.  (The claim as frozen also asserted a match for the
empty parsed title via empty-string containment; `C1_counterexample` shows
the code skips the loop there.) -/
theorem C1_matcher_first_match (t : Option String) (books : List Book)
    (h : ∀ b ∈ books, b.title ≠ none) :
    matchStep t books = Except.ok (matcherSpec t books) := by
  cases t with
  | none => rfl
  | some s =>
    show (if s = "" then Except.ok none else findMatch s books) =
      Except.ok (if s = "" then none else books.find? (titleMatches s))
    by_cases hs : s = ""
    · rw [if_pos hs, if_pos hs]
    · rw [if_neg hs, if_neg hs]
      exact findMatch_eq s books h

/-- Witness for C1 on the spec's scenario-B candidates: the parsed title
"연금술사" selects the second candidate, the first in list order that
satisfies the containment test. -/
theorem C1_matcher_first_match_witness :
    matchStep (some "연금술사")
        [⟨some "작은 것들의 신", some "아룬다티 로이", some "소설", none, "별점 정보 없음"⟩,
         ⟨some "연금술사", some "파울로 코엘료", some "소설", none, "별점 정보 없음"⟩] =
      Except.ok (matcherSpec (some "연금술사")
        [⟨some "작은 것들의 신", some "아룬다티 로이", some "소설", none, "별점 정보 없음"⟩,
         ⟨some "연금술사", some "파울로 코엘료", some "소설", none, "별점 정보 없음"⟩]) ∧
    matcherSpec (some "연금술사")
        [⟨some "작은 것들의 신", some "아룬다티 로이", some "소설", none, "별점 정보 없음"⟩,
         ⟨some "연금술사", some "파울로 코엘료", some "소설", none, "별점 정보 없음"⟩] =
      some ⟨some "연금술사", some "파울로 코엘료", some "소설", none, "별점 정보 없음"⟩ :=
  ⟨C1_matcher_first_match _ _ (by decide), by decide⟩

/-- C1 counterexample: the claim as stated, instantiated at the parsed
title `""` (which the parser can produce) and a one-candidate list, demands
the first candidate, since the empty string is contained in every title;
the code returns no match because the truthiness guard treats `""` like an
absent title. -/
theorem C1_counterexample :
    pyIn "" "연금술사" = true ∧
    matchStep (some "")
        [⟨some "연금술사", some "파울로 코엘료", some "소설", none, "별점 정보 없음"⟩] =
      Except.ok none :=
  ⟨by decide, rfl⟩

/-- C2 (code bug evaluation): a successfully parsed search response whose
single item has no `cover` child makes the whole run crash with an
`AttributeError` (line 170 reads `item.find('cover', ns).text` unguarded
and the handler of line 323 only catches `BookSearchError` and
`RecommendationError`), so the two declared fatal errors are not the only
ways a run can abort. -/
theorem C2_workflow_crash :
    run_recommendation_workflow
        (ApiResponse.doc ⟨[⟨XmlField.absent, XmlField.present (some "소년이 온다"),
          XmlField.absent, XmlField.absent, XmlField.absent⟩]⟩)
        (fun _ => ApiResponse.parseError "")
        (GeminiResult.success "추천 도서: 소년이 온다") =
      Terminal.crashed (PyErr.attributeError "NoneType object has no attribute text") := rfl

/-- C3 (code bug evaluation): network and XML-parse failures of the lookup
are swallowed into `None` as the claim states, but a successfully parsed
document whose `ratingScore` text is non-numeric makes `float` raise a
`ValueError` that neither `except` clause of `get_book_detail` catches, so
the function is not total over arbitrary document content. -/
theorem C3_detail_crash :
    get_book_detail (ApiResponse.requestError "connection refused") = Except.ok none ∧
    get_book_detail (ApiResponse.parseError "not well-formed") = Except.ok none ∧
    get_book_detail (ApiResponse.doc ⟨some ⟨some ⟨some ⟨XmlField.present (some "abc")⟩⟩,
        XmlField.absent⟩⟩) =
      Except.error (PyErr.valueError "could not convert string to float: abc") :=
  ⟨rfl, rfl, rfl⟩

/-- C4 (amended): the parser scans the `splitlines` lines in original order
for the first line starting with the marker "추천 도서:"; for that line it
returns the line's text with every occurrence of the marker replaced by the
empty string and surrounding whitespace stripped (for a line in which the
marker occurs only as the leading prefix this equals the exact trimmed
suffix); when no line starts with the marker it returns `none`; the
function is total, so it never raises.  (The claim as frozen promised the
exact trimmed suffix unconditionally; `C4_counterexample` shows the
replace-all divergence.) -/
theorem C4_parser_marker_scan (text : String) :
    ((∀ l ∈ pySplitlines text, pyStartswith l "추천 도서:" = false) →
      parse_recommended_book_title text = none) ∧
    (∀ pre l post, pySplitlines text = pre ++ l :: post →
      (∀ l2 ∈ pre, pyStartswith l2 "추천 도서:" = false) →
      pyStartswith l "추천 도서:" = true →
      parse_recommended_book_title text = some (pyStrip (pyReplace l "추천 도서:" ""))) := by
  constructor
  · intro hnone
    unfold parse_recommended_book_title
    rw [List.find?_eq_none.mpr (fun x hx => by simp [hnone x hx])]
    rfl
  · intro pre l post hsplit hpre hl
    unfold parse_recommended_book_title
    rw [hsplit, find?_pre_cons _ pre l post hpre hl]
    rfl

/-- Witness for C4 on a three-line response whose second line is the first
marker line: the parser returns the stripped remainder "연금술사". -/
theorem C4_parser_marker_scan_witness :
    parse_recommended_book_title "안녕하세요\n추천 도서: 연금술사\n추천 이유: 좋은 책입니다" =
      some (pyStrip (pyReplace "추천 도서: 연금술사" "추천 도서:" "")) ∧
    pyStrip (pyReplace "추천 도서: 연금술사" "추천 도서:" "") = "연금술사" :=
  ⟨(C4_parser_marker_scan _).2 ["안녕하세요"] "추천 도서: 연금술사" ["추천 이유: 좋은 책입니다"]
      (by decide) (by decide) (by decide),
   by decide⟩

/-- C4 counterexample: on a marker line that contains the marker a second
time, the source's `replace` removes both occurrences, so the result "XY"
differs from the exact trimmed suffix "X추천 도서:Y" promised by the claim. -/
theorem C4_counterexample :
    ("추천 도서:" ++ "X추천 도서:Y" : String) = "추천 도서:X추천 도서:Y" ∧
    pyStrip "X추천 도서:Y" = "X추천 도서:Y" ∧
    parse_recommended_book_title "추천 도서:X추천 도서:Y" = some "XY" ∧
    some "XY" ≠ some "X추천 도서:Y" :=
  ⟨rfl, by decide, by decide, by decide⟩

/-- C5: extraction priority of the detail lookup on a successfully parsed
document with an item.  A positive `ratingScore` yields "score / 10.0"
using the raw score text, for every value of `customerReviewRank` (which is
therefore not consulted); when the score branch falls through benignly
(absent chain, empty text, or a non-positive value such as "0"), a positive
integer `customerReviewRank` yields "rank / 10"; otherwise the sentinel. -/
theorem C5_detail_priority (it : LookupItem) :
    (∀ si ri s f, it.subInfo = some si → si.ratingInfo = some ri →
      ri.ratingScore = XmlField.present (some s) → s ≠ "" →
      pyFloat? s = some f → 0 < f.num →
      get_book_detail (ApiResponse.doc ⟨some it⟩) =
        Except.ok (some ⟨s ++ " / 10.0"⟩)) ∧
    (scoreBranch it = BranchRes.off → ∀ s n,
      it.customerReviewRank = XmlField.present (some s) → s ≠ "" →
      pyInt? s = some n → 0 < n →
      get_book_detail (ApiResponse.doc ⟨some it⟩) =
        Except.ok (some ⟨toString n ++ " / 10"⟩)) ∧
    (scoreBranch it = BranchRes.off → rankBranch it = BranchRes.off →
      get_book_detail (ApiResponse.doc ⟨some it⟩) =
        Except.ok (some ⟨"별점 정보 없음"⟩)) := by
  refine ⟨?_, ?_, ?_⟩
  · intro si ri s f hsi hri hsc hs hq hq0
    have hsb : scoreBranch it = BranchRes.fired (s ++ " / 10.0") := by
      unfold scoreBranch
      simp only [hsi, hri, hsc]
      rw [if_neg hs]
      simp only [hq]
      rw [if_pos hq0]
    simp only [get_book_detail, hsb]
  · intro hsb s n hcr hs hn hn0
    have hrb : rankBranch it = BranchRes.fired (toString n ++ " / 10") := by
      unfold rankBranch
      simp only [hcr]
      rw [if_neg hs]
      simp only [hn]
      rw [if_pos hn0]
    simp only [get_book_detail, hsb, hrb]
  · intro hsb hrb
    simp only [get_book_detail, hsb, hrb]

/-- Witness for C5 at the spec's scenario-D values: score "9.2" wins over a
present review rank; score "0" falls through to rank "7"; an empty chain
yields the sentinel. -/
theorem C5_detail_priority_witness :
    get_book_detail (ApiResponse.doc ⟨some ⟨some ⟨some ⟨XmlField.present (some "9.2")⟩⟩,
        XmlField.present (some "3")⟩⟩) = Except.ok (some ⟨"9.2 / 10.0"⟩) ∧
    get_book_detail (ApiResponse.doc ⟨some ⟨some ⟨some ⟨XmlField.present (some "0")⟩⟩,
        XmlField.present (some "7")⟩⟩) = Except.ok (some ⟨"7 / 10"⟩) ∧
    get_book_detail (ApiResponse.doc ⟨some ⟨some ⟨none⟩, XmlField.absent⟩⟩) =
      Except.ok (some ⟨"별점 정보 없음"⟩) := by
  refine ⟨?_, ?_, ?_⟩
  · exact (C5_detail_priority _).1 _ _ "9.2" ⟨92, 1⟩ rfl rfl rfl
      (by decide) (by decide) (by decide)
  · exact (C5_detail_priority _).2.1 (by decide) "7" (7 : ℤ) rfl
      (by decide) (by decide) (by decide)
  · exact (C5_detail_priority _).2.2 (by decide) (by decide)

/-- C6: a network failure or XML parse failure of the search request itself
becomes a `BookSearchError` whose message carries the cause text, while a
successfully parsed response with zero items returns the empty list, which
the orchestrator turns into the distinct `noResults` terminal. -/
theorem C6_search_failure_policy (m : String) (env : String → ApiResponse LookupDoc)
    (gem : GeminiResult) (d : SearchDoc) :
    search_books_by_title (ApiResponse.requestError m) env =
      Except.error (PyErr.bookSearchError ("알라딘 서버와 통신 중 오류가 발생했습니다: " ++ m)) ∧
    search_books_by_title (ApiResponse.parseError m) env =
      Except.error (PyErr.bookSearchError ("알라딘 서버의 응답을 처리하는 데 실패했습니다: " ++ m)) ∧
    (d.items = [] →
      search_books_by_title (ApiResponse.doc d) env = Except.ok [] ∧
      run_recommendation_workflow (ApiResponse.doc d) env gem = Terminal.noResults) := by
  refine ⟨rfl, rfl, fun hd => ?_⟩
  have hs : search_books_by_title (ApiResponse.doc d) env = Except.ok [] := by
    simp only [search_books_by_title, hd]
  refine ⟨hs, ?_⟩
  unfold run_recommendation_workflow workflowBody
  rw [hs]

/-- Witness for C6: a timed-out search request yields the wrapped fatal
error, and a parsed empty result list ends the run in `noResults`. -/
theorem C6_search_failure_policy_witness :
    search_books_by_title (ApiResponse.requestError "timeout")
        (fun _ => ApiResponse.parseError "") =
      Except.error (PyErr.bookSearchError
        ("알라딘 서버와 통신 중 오류가 발생했습니다: " ++ "timeout")) ∧
    run_recommendation_workflow (ApiResponse.doc ⟨[]⟩) (fun _ => ApiResponse.parseError "")
        (GeminiResult.success "x") = Terminal.noResults :=
  ⟨(C6_search_failure_policy "timeout" (fun _ => ApiResponse.parseError "")
      (GeminiResult.success "x") ⟨[]⟩).1,
   ((C6_search_failure_policy "timeout" (fun _ => ApiResponse.parseError "")
      (GeminiResult.success "x") ⟨[]⟩).2.2 rfl).2⟩

/-- C7: every candidate of a successful search carries a nonempty star
rating, which is either the sentinel or the rating string of a returned
detail lookup. -/
theorem C7_star_rating_invariant (sr : ApiResponse SearchDoc)
    (env : String → ApiResponse LookupDoc) (books : List Book)
    (h : search_books_by_title sr env = Except.ok books) (b : Book) (hb : b ∈ books) :
    b.star_rating ≠ "" ∧
      (b.star_rating = "별점 정보 없음" ∨
        ∃ s r, get_book_detail (env s) = Except.ok (some r) ∧
          b.star_rating = r.star_rating) := by
  obtain ⟨it, hit⟩ : ∃ it, processItem env it = Except.ok b := by
    cases sr with
    | requestError m => simp [search_books_by_title] at h
    | parseError m => simp [search_books_by_title] at h
    | doc d =>
      simp only [search_books_by_title] at h
      cases hd : d.items with
      | nil =>
        rw [hd] at h
        have h2 : Except.ok ([] : List Book) = Except.ok books := h
        injection h2 with h3
        rw [← h3] at hb
        simp at hb
      | cons it0 rest =>
        rw [hd] at h
        exact buildBooks_mem env (it0 :: rest) books h b hb
  have hstar := processItem_star env it b hit
  have hdis := starOf_ok env (isbnText it) b.star_rating hstar
  refine ⟨?_, hdis⟩
  rcases hdis with h1 | ⟨s, r, hr, hbr⟩
  · rw [h1]
    decide
  · rw [hbr]
    exact detail_rating_ne_empty (env s) r hr

/-- Witness for C7: a one-item search with no ISBN produces the sentinel
rating, nonempty and equal to the sentinel disjunct. -/
theorem C7_star_rating_invariant_witness :
    ("별점 정보 없음" : String) ≠ "" ∧
      (("별점 정보 없음" : String) = "별점 정보 없음" ∨
        ∃ (_ : String) (r : RatingInfo),
          get_book_detail (ApiResponse.parseError "bad") = Except.ok (some r) ∧
            ("별점 정보 없음" : String) = r.star_rating) :=
  C7_star_rating_invariant
    (ApiResponse.doc ⟨[⟨XmlField.absent, XmlField.present (some "연금술사"),
      XmlField.absent, XmlField.absent, XmlField.present none⟩]⟩)
    (fun _ => ApiResponse.parseError "bad")
    [⟨some "연금술사", some "저자 없음", some "설명 없음", none, "별점 정보 없음"⟩]
    rfl
    ⟨some "연금술사", some "저자 없음", some "설명 없음", none, "별점 정보 없음"⟩
    (by decide)

/-- C8: a successfully parsed search response whose items all process
without raising yields exactly one candidate per item in provider order,
each built by `mkBook`: guarded placeholder defaults for title, author and
description, the cover text, and the detail-lookup-or-sentinel rating. -/
theorem C8_search_construction (d : SearchDoc) (env : String → ApiResponse LookupDoc)
    (h : ∀ it ∈ d.items, itemOk env it = true) :
    search_books_by_title (ApiResponse.doc d) env =
      Except.ok (d.items.map (mkBook env)) ∧
    (d.items.map (mkBook env)).length = d.items.length := by
  refine ⟨?_, by simp⟩
  simp only [search_books_by_title]
  cases hd : d.items with
  | nil => rfl
  | cons it rest =>
    show buildBooks env (it :: rest) = Except.ok ((it :: rest).map (mkBook env))
    exact buildBooks_map env (it :: rest) (fun x hx => h x (by rw [hd]; exact hx))

/-- Witness for C8 on a two-item response: the first item has every field
and a truthy ISBN whose detail lookup fails over the network (sentinel
fallback), the second has only an empty cover element (all placeholders). -/
theorem C8_search_construction_witness :
    search_books_by_title (ApiResponse.doc ⟨[
        ⟨XmlField.present (some "9788982814471"), XmlField.present (some "연금술사"),
          XmlField.present (some "파울로 코엘료"), XmlField.present (some "소설"),
          XmlField.present (some "http://cover")⟩,
        ⟨XmlField.absent, XmlField.absent, XmlField.absent, XmlField.absent,
          XmlField.present none⟩]⟩)
        (fun _ => ApiResponse.requestError "down") =
      Except.ok ([
        ⟨XmlField.present (some "9788982814471"), XmlField.present (some "연금술사"),
          XmlField.present (some "파울로 코엘료"), XmlField.present (some "소설"),
          XmlField.present (some "http://cover")⟩,
        ⟨XmlField.absent, XmlField.absent, XmlField.absent, XmlField.absent,
          XmlField.present none⟩].map (mkBook (fun _ => ApiResponse.requestError "down"))) ∧
    [⟨XmlField.present (some "9788982814471"), XmlField.present (some "연금술사"),
        XmlField.present (some "파울로 코엘료"), XmlField.present (some "소설"),
        XmlField.present (some "http://cover")⟩,
      ⟨XmlField.absent, XmlField.absent, XmlField.absent, XmlField.absent,
        XmlField.present none⟩].map (mkBook (fun _ => ApiResponse.requestError "down")) =
      [⟨some "연금술사", some "파울로 코엘료", some "소설", some "http://cover", "별점 정보 없음"⟩,
       ⟨some "제목 없음", some "저자 없음", some "설명 없음", none, "별점 정보 없음"⟩] :=
  ⟨(C8_search_construction ⟨[
      ⟨XmlField.present (some "9788982814471"), XmlField.present (some "연금술사"),
        XmlField.present (some "파울로 코엘료"), XmlField.present (some "소설"),
        XmlField.present (some "http://cover")⟩,
      ⟨XmlField.absent, XmlField.absent, XmlField.absent, XmlField.absent,
        XmlField.present none⟩]⟩ (fun _ => ApiResponse.requestError "down") (by decide)).1,
   by decide⟩

/-- C9: the rationale rendered with a resolved recommendation depends only
on the lines after the first one — prepending any break-free first line and
a newline leaves exactly the joined remainder with the reason marker
occurrences removed and whitespace stripped. -/
theorem C9_reason_drops_first_line (first rest : String)
    (h : ∀ c ∈ first.data, pyLineBreak c = false) :
    recommendation_card_reason (first ++ "\n" ++ rest) =
      pyStrip (pyReplace (pyJoinNl (pySplitlines rest)) "추천 이유:" "") := by
  unfold recommendation_card_reason
  rw [pySplitlines_cons first rest h]
  rfl

/-- Witness for C9: dropping the title line of a two-line response and
stripping the reason marker leaves the rationale text. -/
theorem C9_reason_drops_first_line_witness :
    recommendation_card_reason
        ("추천 도서: 연금술사" ++ "\n" ++ "추천 이유: 따뜻한 위로가 되는 책입니다") =
      pyStrip (pyReplace (pyJoinNl (pySplitlines "추천 이유: 따뜻한 위로가 되는 책입니다"))
        "추천 이유:" "") ∧
    pyStrip (pyReplace (pyJoinNl (pySplitlines "추천 이유: 따뜻한 위로가 되는 책입니다"))
        "추천 이유:" "") = "따뜻한 위로가 되는 책입니다" :=
  ⟨C9_reason_drops_first_line "추천 도서: 연금술사" "추천 이유: 따뜻한 위로가 되는 책입니다"
      (by decide),
   by decide⟩

/-- C10: when the parser returns the empty string (a marker line with
nothing after the marker), the truthiness guard treats it as absent: the
candidate loop yields no match — in particular no candidate is selected by
empty-string containment — and the run ends in the `unmatched` terminal
showing the raw (stripped) response text. -/
theorem C10_empty_parsed_title_unmatched (sr : ApiResponse SearchDoc)
    (env : String → ApiResponse LookupDoc) (b : Book) (bs : List Book) (t : String)
    (hs : search_books_by_title sr env = Except.ok (b :: bs))
    (hp : parse_recommended_book_title (pyStrip t) = some "") :
    matchStep (parse_recommended_book_title (pyStrip t)) (b :: bs) = Except.ok none ∧
    run_recommendation_workflow sr env (GeminiResult.success t) =
      Terminal.unmatched (pyStrip t) := by
  have hm : matchStep (parse_recommended_book_title (pyStrip t)) (b :: bs) =
      Except.ok none := by
    rw [hp]
    rfl
  refine ⟨hm, ?_⟩
  have hwb : workflowBody sr env (GeminiResult.success t) =
      Except.ok (Terminal.unmatched (pyStrip t)) := by
    unfold workflowBody
    rw [hs]
    show (match matchStep (parse_recommended_book_title (pyStrip t)) (b :: bs) with
      | Except.error e => Except.error e
      | Except.ok (some bk) => Except.ok (Terminal.resolved bk (pyStrip t))
      | Except.ok none => Except.ok (Terminal.unmatched (pyStrip t))) =
      Except.ok (Terminal.unmatched (pyStrip t))
    rw [hm]
  unfold run_recommendation_workflow
  rw [hwb]

/-- Witness for C10: a one-candidate search and the bare-marker response
"추천 도서:" end the run in `unmatched` with the raw text shown. -/
theorem C10_empty_parsed_title_unmatched_witness :
    run_recommendation_workflow
        (ApiResponse.doc ⟨[⟨XmlField.absent, XmlField.present (some "연금술사"),
          XmlField.absent, XmlField.absent, XmlField.present none⟩]⟩)
        (fun _ => ApiResponse.parseError "")
        (GeminiResult.success "추천 도서:") =
      Terminal.unmatched (pyStrip "추천 도서:") :=
  (C10_empty_parsed_title_unmatched
      (ApiResponse.doc ⟨[⟨XmlField.absent, XmlField.present (some "연금술사"),
        XmlField.absent, XmlField.absent, XmlField.present none⟩]⟩)
      (fun _ => ApiResponse.parseError "")
      ⟨some "연금술사", some "저자 없음", some "설명 없음", none, "별점 정보 없음"⟩ []
      "추천 도서:" rfl (by decide)).2
